import Mathlib

/-!
Shallow embedding of the configuration-property mapping and connector
visibility-filtering logic of the `identity-apps` admin portal:

* `apps/admin-portal/src/components/serverConfigurations/user-self-registration.tsx`
  (self-registration property mapper: `getSelfRegistrationCheckboxValues`,
  `getSelfSignUpPatchCallData`, and the scalar extraction in the
  `getSelfSignUpConfigurations` effect handler), and
* the `GovernanceConnectorUtils` class (sub-organization connector allow-list
  filtering, label/hint resolution, property-name encoding).

Machine model: JavaScript strings become `String`, arrays become `List`,
objects become structures.  Code that would throw at runtime (unguarded
`.find(...).value`, unguarded `.filter(...)[0]` indexing) is embedded as
`Except ConfigError`, with the error taxonomy of the design
(`missingPropertyError`, `unknownCategoryError`).  In-place mutation of the
caller's connector objects is made explicit: the filter function returns both
its JS return value and the post-call state of the input sequence.
-/

/-- A flat `{name, value}` configuration property as returned by the remote
configuration API (also used for the `properties` of a remote governance
connector, of which the filtering code reads only `name`). -/
structure ConfigProperty where
  name : String
  value : String
deriving DecidableEq, Repr

/-- Self registration API key constants from `user-self-registration.tsx`. -/
def SELF_REGISTRATION_ENABLE : String := "SelfRegistration.Enable"

/-- Key constant `SelfRegistration.LockOnCreation`. -/
def ACCOUNT_LOCK_ON_CREATION : String := "SelfRegistration.LockOnCreation"

/-- Key constant `SelfRegistration.Notification.InternallyManage`. -/
def NOTIFICATION_INTERNALLY_MANAGED : String := "SelfRegistration.Notification.InternallyManage"

/-- Key constant `SelfRegistration.ReCaptcha`. -/
def RE_CAPTCHA : String := "SelfRegistration.ReCaptcha"

/-- Key constant `SelfRegistration.VerificationCode.ExpiryTime`. -/
def VERIFICATION_CODE_EXPIRY_TIME : String := "SelfRegistration.VerificationCode.ExpiryTime"

/-- Key constant `SelfRegistration.VerificationCode.SMSOTP.ExpiryTime`. -/
def SMS_OTP_EXPIRY_TIME : String := "SelfRegistration.VerificationCode.SMSOTP.ExpiryTime"

/-- Key constant `SelfRegistration.CallbackRegex`. -/
def CALLBACK_REGEX : String := "SelfRegistration.CallbackRegex"

/-- The four boolean-flag keys, in the order the source declares and checks
them. -/
def flagKeys : List String :=
  [SELF_REGISTRATION_ENABLE, ACCOUNT_LOCK_ON_CREATION,
   NOTIFICATION_INTERNALLY_MANAGED, RE_CAPTCHA]

/-- The three required scalar keys extracted in the
`getSelfSignUpConfigurations` effect handler, in source check order. -/
def requiredScalarKeys : List String :=
  [VERIFICATION_CODE_EXPIRY_TIME, SMS_OTP_EXPIRY_TIME, CALLBACK_REGEX]

/-- View-model state `SelfSignUpConfigurationsInterface` as populated by the
effect handler: selected checkbox keys plus the three scalar fields. -/
structure SelfSignUpConfigurations where
  checkboxValues : List String
  verificationCodeExpiryTime : String
  smsOTPExpiryTime : String
  callbackRegex : String
deriving DecidableEq, Repr

/-- The PATCH request body built by `getSelfSignUpPatchCallData`. -/
structure PatchData where
  operation : String
  properties : List ConfigProperty
deriving DecidableEq, Repr

/-- Error taxonomy of the design: a required scalar key absent from the API
response, or a category id with no allow-list entry.  The source reaches these
situations as unguarded-lookup crashes (`.find(...).value` on `undefined`,
`.filter(...)[0].connectors` on `undefined`); fallible code is embedded as
`Except ConfigError`. -/
inductive ConfigError where
  | missingPropertyError (name : String)
  | unknownCategoryError (categoryId : String)
deriving DecidableEq, Repr

deriving instance DecidableEq for Except

/-- One `if` block of the loop body of `getSelfRegistrationCheckboxValues`:
when the property's name is `key` and its value is the literal `"true"`, the
key is pushed onto the accumulator (embedded as the singleton list it
appends). -/
def flagPush (key : String) (property : ConfigProperty) : List String :=
  if property.name == key then
    (if property.value == "true" then [key] else [])
  else []

/-- The whole loop body of `getSelfRegistrationCheckboxValues` for one
property: the four `if` blocks run in sequence, each possibly pushing its
key. -/
def checkboxPushes (property : ConfigProperty) : List String :=
  flagPush SELF_REGISTRATION_ENABLE property ++
  flagPush ACCOUNT_LOCK_ON_CREATION property ++
  flagPush NOTIFICATION_INTERNALLY_MANAGED property ++
  flagPush RE_CAPTCHA property

/-- `getSelfRegistrationCheckboxValues`: loop through the properties array of
the API response and collect, in input order, the flag keys whose property
value is `"true"`. -/
def getSelfRegistrationCheckboxValues (properties : List ConfigProperty) : List String :=
  (properties.map checkboxPushes).flatten

/-- Lookup of `properties.find(property => property.name == key).value` in the
effect handler; `none` is the case where the JS code would throw on reading
`.value` of `undefined`. -/
def findPropertyValue (properties : List ConfigProperty) (key : String) : Option String :=
  (properties.find? (fun property => property.name == key)).map ConfigProperty.value

/-- The `getSelfSignUpConfigurations` effect handler's construction of the
view-model (`toViewModel` of the design): checkbox values from
`getSelfRegistrationCheckboxValues`, and the three scalar fields from the
first property with the matching name; an absent required scalar key is the
explicit `missingPropertyError` (in the source, an unguarded
`.find(...).value` crash), checked in source field order. -/
def toViewModel (properties : List ConfigProperty) :
    Except ConfigError SelfSignUpConfigurations :=
  match findPropertyValue properties VERIFICATION_CODE_EXPIRY_TIME with
  | none => .error (.missingPropertyError VERIFICATION_CODE_EXPIRY_TIME)
  | some verificationCodeExpiryTime =>
    match findPropertyValue properties SMS_OTP_EXPIRY_TIME with
    | none => .error (.missingPropertyError SMS_OTP_EXPIRY_TIME)
    | some smsOTPExpiryTime =>
      match findPropertyValue properties CALLBACK_REGEX with
      | none => .error (.missingPropertyError CALLBACK_REGEX)
      | some callbackRegex =>
        .ok { checkboxValues := getSelfRegistrationCheckboxValues properties,
              verificationCodeExpiryTime := verificationCodeExpiryTime,
              smsOTPExpiryTime := smsOTPExpiryTime,
              callbackRegex := callbackRegex }

/-- `getSelfSignUpPatchCallData` (`toUpdateRequest` of the design): the PATCH
request body, with one entry per declared key in the source's fixed order;
each flag entry is `"true"` iff the flag key is in `checkboxValues`
(`Array.includes`), and each scalar entry copies the view-model field
verbatim. -/
def getSelfSignUpPatchCallData (selfSignUpConfigs : SelfSignUpConfigurations) : PatchData :=
  { operation := "UPDATE",
    properties := [
      { name := SELF_REGISTRATION_ENABLE,
        value := if selfSignUpConfigs.checkboxValues.contains SELF_REGISTRATION_ENABLE
                 then "true" else "false" },
      { name := ACCOUNT_LOCK_ON_CREATION,
        value := if selfSignUpConfigs.checkboxValues.contains ACCOUNT_LOCK_ON_CREATION
                 then "true" else "false" },
      { name := NOTIFICATION_INTERNALLY_MANAGED,
        value := if selfSignUpConfigs.checkboxValues.contains NOTIFICATION_INTERNALLY_MANAGED
                 then "true" else "false" },
      { name := RE_CAPTCHA,
        value := if selfSignUpConfigs.checkboxValues.contains RE_CAPTCHA
                 then "true" else "false" },
      { name := VERIFICATION_CODE_EXPIRY_TIME,
        value := selfSignUpConfigs.verificationCodeExpiryTime },
      { name := SMS_OTP_EXPIRY_TIME,
        value := selfSignUpConfigs.smsOTPExpiryTime },
      { name := CALLBACK_REGEX,
        value := selfSignUpConfigs.callbackRegex }
    ] }

example :
    toViewModel
      [⟨"SelfRegistration.Enable", "true"⟩,
       ⟨"SelfRegistration.LockOnCreation", "false"⟩,
       ⟨"SelfRegistration.VerificationCode.ExpiryTime", "1440"⟩,
       ⟨"SelfRegistration.VerificationCode.SMSOTP.ExpiryTime", "1"⟩,
       ⟨"SelfRegistration.CallbackRegex", ".*"⟩] =
    .ok { checkboxValues := ["SelfRegistration.Enable"],
          verificationCodeExpiryTime := "1440",
          smsOTPExpiryTime := "1",
          callbackRegex := ".*" } := by decide

example : toViewModel [] = .error (.missingPropertyError VERIFICATION_CODE_EXPIRY_TIME) := by
  decide

/-- Sample input of the specification's worked example. -/
def sampleProperties : List ConfigProperty :=
  [⟨"SelfRegistration.Enable", "true"⟩, ⟨"SelfRegistration.LockOnCreation", "false"⟩,
   ⟨"SelfRegistration.VerificationCode.ExpiryTime", "1440"⟩,
   ⟨"SelfRegistration.VerificationCode.SMSOTP.ExpiryTime", "1"⟩,
   ⟨"SelfRegistration.CallbackRegex", ".*"⟩]

/-- A governance connector of the allow-list table
(`GovernanceConnectorForOrgsInterface`): its `properties` are allow-listed
property names. -/
structure GovernanceConnectorForOrgs where
  friendlyName : String
  id : String
  name : String
  properties : List String
deriving DecidableEq, Repr

/-- An allow-list category (`GovernanceCategoryForOrgsInterface`). -/
structure GovernanceCategoryForOrgs where
  connectors : List GovernanceConnectorForOrgs
  id : String
  name : String
deriving DecidableEq, Repr

/-- A remote governance connector (`GovernanceConnectorInterface`, the fields
the filtering code reads: `id` and `properties`, each property carrying a
`name`), plus `name` for identification. -/
structure GovernanceConnector where
  id : String
  name : String
  properties : List ConfigProperty
deriving DecidableEq, Repr

namespace GovernanceConnectorUtils

/-- `encodeConnectorPropertyName`: `name.split(".").join("-")`.  JS `split` on
a one-character separator is embedded character-wise by `splitOnChar`, and
`join` by `joinWith`. -/
def splitOnChar (sep : Char) : List Char → List (List Char)
  | [] => [[]]
  | c :: cs =>
    match splitOnChar sep cs with
    | [] => [[]]
    | g :: gs => if c = sep then [] :: g :: gs else (c :: g) :: gs

/-- JS `Array.prototype.join` with a one-character separator, on character
lists. -/
def joinWith (sep : Char) : List (List Char) → List Char
  | [] => []
  | [g] => g
  | g :: gs => g ++ sep :: joinWith sep gs

/-- `GovernanceConnectorUtils.encodeConnectorPropertyName`: replaces the
separator by splitting on `"."` and joining with `"-"`. -/
def encodeConnectorPropertyName (name : String) : String :=
  ⟨joinWith '-' (splitOnChar '.' name.data)⟩

/-- `GovernanceConnectorUtils.decodeConnectorPropertyName`: splits on `"-"`
and joins with `"."`. -/
def decodeConnectorPropertyName (name : String) : String :=
  ⟨joinWith '.' (splitOnChar '-' name.data)⟩

/-- The static allow-list table
`GovernanceConnectorUtils.SHOW_GOVERNANCE_CONNECTORS_FOR_SUBORGS`, verbatim
from the source. -/
def SHOW_GOVERNANCE_CONNECTORS_FOR_SUBORGS : List GovernanceCategoryForOrgs :=
  [ { connectors := [
        { friendlyName := "Account Recovery",
          id := "YWNjb3VudC1yZWNvdmVyeQ",
          name := "account-recovery",
          properties := [
            "Recovery.Notification.Password.Enable"
          ] }
      ],
      id := "QWNjb3VudCBNYW5hZ2VtZW50",
      name := "Account Management" },
    { connectors := [
        { friendlyName := "Ask Password",
          id := "dXNlci1lbWFpbC12ZXJpZmljYXRpb24",
          name := "user-email-verification",
          properties := [
            "EmailVerification.Enable",
            "EmailVerification.LockOnCreation",
            "EmailVerification.Notification.InternallyManage",
            "EmailVerification.ExpiryTime",
            "EmailVerification.AskPassword.ExpiryTime",
            "EmailVerification.AskPassword.PasswordGenerator",
            "_url_listPurposeJITProvisioning"
          ] }
      ],
      id := "VXNlciBPbmJvYXJkaW5n",
      name := "User Onboarding" } ]

/-- `GovernanceConnectorUtils.getGovernanceConnectorsProperties`:
`showGovernanceConnectors.filter(c => c.id === governanceConnectorId)[0].properties`;
`none` is the case where the JS `[0]` index is `undefined` and reading
`.properties` would throw. -/
def getGovernanceConnectorsProperties
    (showGovernanceConnectors : List GovernanceConnectorForOrgs)
    (governanceConnectorId : String) : Option (List String) :=
  ((showGovernanceConnectors.filter
      (fun connector => connector.id == governanceConnectorId)).head?).map
    GovernanceConnectorForOrgs.properties

/-- The in-place update `connector.properties = connector.properties.filter(...)`
performed on a retained connector: keep only properties whose name is
allow-listed for this connector id.  When the guard
`showGovernanceConnectorsIdOfSuborgs.includes(connector.id)` holds, the inner
lookup always finds an entry, so the `Option` default is unreachable. -/
def filterConnectorInPlace (showGovernanceConnectors : List GovernanceConnectorForOrgs)
    (connector : GovernanceConnector) : GovernanceConnector :=
  let showProperties :=
    (getGovernanceConnectorsProperties showGovernanceConnectors connector.id).getD []
  { connector with
    properties := connector.properties.filter
      (fun property => showProperties.contains property.name) }

/-- `GovernanceConnectorUtils.filterGovernanceConnectorCategories`
(`filterForSubOrg` of the design).  The unguarded
`SHOW_GOVERNANCE_CONNECTORS_FOR_SUBORGS.filter(...)[0].connectors` index is
the `unknownCategoryError` case.  The JS function mutates the caller's
connector objects while filtering (`connector.properties = ...`), so the
embedding returns a pair: the function's return value, and the post-call
state of the input sequence (each retained connector with its properties
filtered in place, every other connector untouched). -/
def filterGovernanceConnectorCategories (governanceCategoryId : String)
    (governanceConnectors : List GovernanceConnector) :
    Except ConfigError (List GovernanceConnector × List GovernanceConnector) :=
  match (SHOW_GOVERNANCE_CONNECTORS_FOR_SUBORGS.filter
      (fun category => category.id == governanceCategoryId)).head? with
  | none => .error (.unknownCategoryError governanceCategoryId)
  | some category =>
    let showGovernanceConnectors := category.connectors
    let showGovernanceConnectorsIdOfSuborgs :=
      showGovernanceConnectors.map GovernanceConnectorForOrgs.id
    let finalState := governanceConnectors.map (fun connector =>
      if showGovernanceConnectorsIdOfSuborgs.contains connector.id then
        filterConnectorInPlace showGovernanceConnectors connector
      else connector)
    .ok (finalState.filter
      (fun connector => showGovernanceConnectorsIdOfSuborgs.contains connector.id),
      finalState)

/-- Read-only external translation provider (`I18n.instance`), modelled per
the design's interface: `exists(key) -> bool`, `get(key) -> string`. -/
structure I18nProvider where
  existsKey : String → Bool
  t : String → String

/-- The lookup key built by `resolveFieldLabel`.  `camelCase` is lodash's
`camelCase`, an external library dependency, taken as a parameter. -/
def fieldLabelKey (camelCase : String → String) (category name : String) : String :=
  "console:manage.features.governanceConnectors.connectorCategories." ++
    camelCase category ++ ".connectors." ++ camelCase name ++
    ".properties." ++ camelCase name ++ ".label"

/-- The lookup key built by `resolveFieldHint`. -/
def fieldHintKey (camelCase : String → String) (category name : String) : String :=
  "console:manage.features.governanceConnectors.connectorCategories." ++
    camelCase category ++ ".connectors." ++ camelCase name ++
    ".properties." ++ camelCase name ++ ".hint"

/-- `GovernanceConnectorUtils.resolveFieldLabel`: returns the translation of
the built key when the provider has an entry for it, else the supplied
`displayName` unchanged. -/
def resolveFieldLabel (i18n : I18nProvider) (camelCase : String → String)
    (category name displayName : String) : String :=
  let fieldLabelKey := fieldLabelKey camelCase category name
  if i18n.existsKey fieldLabelKey then i18n.t fieldLabelKey else displayName

/-- `GovernanceConnectorUtils.resolveFieldHint`: returns the translation of
the built key when the provider has an entry for it, else the supplied
`description` unchanged. -/
def resolveFieldHint (i18n : I18nProvider) (camelCase : String → String)
    (category name description : String) : String :=
  let fieldHintKey := fieldHintKey camelCase category name
  if i18n.existsKey fieldHintKey then i18n.t fieldHintKey else description

/-- First allow-list entry, used as concrete category in witnesses. -/
def accountManagementCategory : GovernanceCategoryForOrgs :=
  { connectors := [
      { friendlyName := "Account Recovery",
        id := "YWNjb3VudC1yZWNvdmVyeQ",
        name := "account-recovery",
        properties := ["Recovery.Notification.Password.Enable"] }
    ],
    id := "QWNjb3VudCBNYW5hZ2VtZW50",
    name := "Account Management" }

/-- Concrete remote connector sequence used in witnesses: the allow-listed
account-recovery connector carrying one extra, non-allow-listed property,
plus a connector with an unknown id. -/
def sampleConnectors : List GovernanceConnector :=
  [ { id := "YWNjb3VudC1yZWNvdmVyeQ",
      name := "account-recovery",
      properties := [⟨"Recovery.Notification.Password.Enable", "true"⟩,
                     ⟨"Other.Property", "x"⟩] },
    { id := "unknown-connector",
      name := "unknown",
      properties := [⟨"P", "1"⟩] } ]

end GovernanceConnectorUtils

example :
    GovernanceConnectorUtils.decodeConnectorPropertyName
      (GovernanceConnectorUtils.encodeConnectorPropertyName "SelfRegistration.Enable") =
    "SelfRegistration.Enable" := by decide

example :
    GovernanceConnectorUtils.encodeConnectorPropertyName "_url_listPurposeJITProvisioning" =
    "_url_listPurposeJITProvisioning" := by decide

example :
    GovernanceConnectorUtils.filterGovernanceConnectorCategories "not-a-real-category" [] =
    .error (.unknownCategoryError "not-a-real-category") := by decide

example :
    GovernanceConnectorUtils.filterGovernanceConnectorCategories
      "QWNjb3VudCBNYW5hZ2VtZW50"
      [{ id := "YWNjb3VudC1yZWNvdmVyeQ", name := "account-recovery",
         properties := [⟨"Recovery.Notification.Password.Enable", "true"⟩,
                        ⟨"Other.Property", "x"⟩] },
       { id := "other-connector", name := "other",
         properties := [⟨"P", "1"⟩] }] =
    .ok ([{ id := "YWNjb3VudC1yZWNvdmVyeQ", name := "account-recovery",
            properties := [⟨"Recovery.Notification.Password.Enable", "true"⟩] }],
         [{ id := "YWNjb3VudC1yZWNvdmVyeQ", name := "account-recovery",
            properties := [⟨"Recovery.Notification.Password.Enable", "true"⟩] },
          { id := "other-connector", name := "other",
            properties := [⟨"P", "1"⟩] }]) := by decide

/-! Helper lemmas about the checkbox-value extraction. -/

/-- The four `if` blocks of the loop body push the property's own name when it
is a flag key with value `"true"`, and nothing otherwise. -/
theorem checkboxPushes_eq (property : ConfigProperty) :
    checkboxPushes property =
      if flagKeys.contains property.name && property.value == "true"
      then [property.name] else [] := by
  by_cases hv : property.value = "true" <;>
  by_cases h1 : property.name = SELF_REGISTRATION_ENABLE <;>
  by_cases h2 : property.name = ACCOUNT_LOCK_ON_CREATION <;>
  by_cases h3 : property.name = NOTIFICATION_INTERNALLY_MANAGED <;>
  by_cases h4 : property.name = RE_CAPTCHA <;>
  simp_all [checkboxPushes, flagPush, flagKeys, SELF_REGISTRATION_ENABLE,
    ACCOUNT_LOCK_ON_CREATION, NOTIFICATION_INTERNALLY_MANAGED, RE_CAPTCHA]

/-- Closed form of `getSelfRegistrationCheckboxValues`: the names of the
flag-key properties with value `"true"`, in input order, one per
occurrence. -/
theorem getSelfRegistrationCheckboxValues_eq (properties : List ConfigProperty) :
    getSelfRegistrationCheckboxValues properties =
      (properties.filter
        (fun p => flagKeys.contains p.name && p.value == "true")).map ConfigProperty.name := by
  induction properties with
  | nil => rfl
  | cons p ps ih =>
    simp only [getSelfRegistrationCheckboxValues, List.map_cons, List.flatten_cons] at *
    rw [checkboxPushes_eq, List.filter_cons]
    by_cases h : (flagKeys.contains p.name && p.value == "true") = true
    · rw [if_pos h, if_pos h, ih, List.map_cons, List.singleton_append]
    · rw [if_neg h, if_neg h, ih, List.nil_append]

/-- Membership in the extracted checkbox values, for a flag key. -/
theorem mem_getSelfRegistrationCheckboxValues {k : String} (hk : k ∈ flagKeys)
    (properties : List ConfigProperty) :
    k ∈ getSelfRegistrationCheckboxValues properties ↔
      ∃ p ∈ properties, p.name = k ∧ p.value = "true" := by
  rw [getSelfRegistrationCheckboxValues_eq]
  simp only [List.mem_map, List.mem_filter, Bool.and_eq_true, beq_iff_eq]
  constructor
  · rintro ⟨p, ⟨hp, _, hval⟩, rfl⟩
    exact ⟨p, hp, rfl, hval⟩
  · rintro ⟨p, hp, rfl, hval⟩
    exact ⟨p, ⟨hp, by simpa using hk, hval⟩, rfl⟩

/-- Boolean version of the membership lemma, phrased with `Array.includes`
(`List.contains`) as used by `getSelfSignUpPatchCallData`. -/
theorem contains_getSelfRegistrationCheckboxValues {k : String} (hk : k ∈ flagKeys)
    (properties : List ConfigProperty) :
    (getSelfRegistrationCheckboxValues properties).contains k =
      properties.any (fun p => p.name == k && p.value == "true") := by
  rw [Bool.eq_iff_iff]
  constructor
  · intro h
    have hmem : k ∈ getSelfRegistrationCheckboxValues properties := by simpa using h
    obtain ⟨p, hp, h1, h2⟩ := (mem_getSelfRegistrationCheckboxValues hk properties).mp hmem
    simp only [List.any_eq_true, Bool.and_eq_true, beq_iff_eq]
    exact ⟨p, hp, h1, h2⟩
  · intro h
    simp only [List.any_eq_true, Bool.and_eq_true, beq_iff_eq] at h
    obtain ⟨p, hp, h1, h2⟩ := h
    simpa using (mem_getSelfRegistrationCheckboxValues hk properties).mpr ⟨p, hp, h1, h2⟩

/-- A predicate holding for exactly one list element makes `find?` return any
member satisfying it. -/
theorem find?_eq_some_of_countP_eq_one {α : Type} {p : α → Bool} {a : α} :
    ∀ {l : List α}, l.countP p = 1 → a ∈ l → p a = true → l.find? p = some a
  | [], _, ha, _ => by simp at ha
  | x :: xs, h, ha, hpa => by
    by_cases hx : p x = true
    · rw [List.find?_cons_of_pos _ hx]
      rcases List.mem_cons.mp ha with rfl | hmem
      · rfl
      · exfalso
        rw [List.countP_cons_of_pos _ _ hx] at h
        have h0 : xs.countP p = 0 := by omega
        exact absurd hpa (by simpa using List.countP_eq_zero.mp h0 a hmem)
    · rw [List.find?_cons_of_neg _ hx]
      rcases List.mem_cons.mp ha with rfl | hmem
      · exact absurd hpa hx
      · exact find?_eq_some_of_countP_eq_one
          (by rwa [List.countP_cons_of_neg _ _ hx] at h) hmem hpa

/-! Helper lemmas about the character-wise split/join embedding of
`encodeConnectorPropertyName` / `decodeConnectorPropertyName`. -/

namespace GovernanceConnectorUtils

/-- Splitting never produces an empty group list (JS `split` always yields at
least one chunk). -/
theorem splitOnChar_ne_nil (sep : Char) (l : List Char) : splitOnChar sep l ≠ [] := by
  cases l with
  | nil => simp [splitOnChar]
  | cons c cs =>
    simp only [splitOnChar]
    cases splitOnChar sep cs with
    | nil => simp
    | cons g gs => by_cases h : c = sep <;> simp [h]

/-- Prepending a character to the first group commutes with joining. -/
theorem joinWith_cons_cons (sep c : Char) (g : List Char) (gs : List (List Char)) :
    joinWith sep ((c :: g) :: gs) = c :: joinWith sep (g :: gs) := by
  cases gs <;> simp [joinWith]

/-- Splitting on `a` and joining with `b` is character-wise replacement of
`a` by `b`. -/
theorem joinWith_splitOnChar (a b : Char) (l : List Char) :
    joinWith b (splitOnChar a l) = l.map (fun c => if c = a then b else c) := by
  induction l with
  | nil => rfl
  | cons c cs ih =>
    cases hs : splitOnChar a cs with
    | nil => exact absurd hs (splitOnChar_ne_nil a cs)
    | cons g gs =>
      rw [hs] at ih
      by_cases hc : c = a
      · simp only [splitOnChar, hs, if_pos hc, List.map_cons, joinWith,
          List.nil_append, ih]
      · simp only [splitOnChar, hs, if_neg hc, List.map_cons,
          joinWith_cons_cons, ih]

/-- `encodeConnectorPropertyName` replaces every `'.'` by `'-'`. -/
theorem encodeConnectorPropertyName_eq (name : String) :
    encodeConnectorPropertyName name =
      ⟨name.data.map (fun c => if c = '.' then '-' else c)⟩ := by
  simp [encodeConnectorPropertyName, joinWith_splitOnChar]

/-- `decodeConnectorPropertyName` replaces every `'-'` by `'.'`. -/
theorem decodeConnectorPropertyName_eq (name : String) :
    decodeConnectorPropertyName name =
      ⟨name.data.map (fun c => if c = '-' then '.' else c)⟩ := by
  simp [decodeConnectorPropertyName, joinWith_splitOnChar]

end GovernanceConnectorUtils

/-- C9: for every name string containing no `'-'` character,
`decodeConnectorPropertyName (encodeConnectorPropertyName name) = name`; the
round trip does not hold in general, since encode maps `"."` to `"-"` and
decode maps every `"-"` (including ones present in the original name) back to
`"."` — witnessed by the name `"a-b"`, which decode-encode maps to `"a.b"`. -/
theorem encode_decode_round_trip :
    (∀ name : String, '-' ∉ name.data →
      GovernanceConnectorUtils.decodeConnectorPropertyName
        (GovernanceConnectorUtils.encodeConnectorPropertyName name) = name) ∧
    GovernanceConnectorUtils.decodeConnectorPropertyName
      (GovernanceConnectorUtils.encodeConnectorPropertyName "a-b") ≠ "a-b" := by
  constructor
  · intro name hname
    rw [GovernanceConnectorUtils.encodeConnectorPropertyName_eq,
      GovernanceConnectorUtils.decodeConnectorPropertyName_eq]
    cases name with
    | mk data =>
      simp only at hname ⊢
      congr 1
      rw [List.map_map]
      have hpt : ∀ c ∈ data, ((fun c => if c = '-' then '.' else c) ∘
          (fun c => if c = '.' then '-' else c)) c = c := by
        intro c hc
        by_cases hdot : c = '.'
        · simp [hdot]
        · have hdash : c ≠ '-' := fun hc' => hname (hc' ▸ hc)
          simp [hdot, hdash]
      calc data.map ((fun c => if c = '-' then '.' else c) ∘
              (fun c => if c = '.' then '-' else c))
          = data.map id := List.map_congr_left hpt
        _ = data := List.map_id data
  · decide

/-- C9 witness: a concrete dash-free name round-trips unchanged. -/
theorem encode_decode_round_trip_witness :
    GovernanceConnectorUtils.decodeConnectorPropertyName
      (GovernanceConnectorUtils.encodeConnectorPropertyName "SelfRegistration.Enable") =
    "SelfRegistration.Enable" :=
  encode_decode_round_trip.1 "SelfRegistration.Enable" (by decide)

/-! Helper lemmas: the PATCH body lookups evaluate by computation. -/

/-- PATCH entry for `SelfRegistration.Enable`. -/
theorem findPatch_enable (cfg : SelfSignUpConfigurations) :
    findPropertyValue (getSelfSignUpPatchCallData cfg).properties SELF_REGISTRATION_ENABLE =
      some (if cfg.checkboxValues.contains SELF_REGISTRATION_ENABLE
            then "true" else "false") := rfl

/-- PATCH entry for `SelfRegistration.LockOnCreation`. -/
theorem findPatch_lockOnCreation (cfg : SelfSignUpConfigurations) :
    findPropertyValue (getSelfSignUpPatchCallData cfg).properties ACCOUNT_LOCK_ON_CREATION =
      some (if cfg.checkboxValues.contains ACCOUNT_LOCK_ON_CREATION
            then "true" else "false") := rfl

/-- PATCH entry for `SelfRegistration.Notification.InternallyManage`. -/
theorem findPatch_internallyManaged (cfg : SelfSignUpConfigurations) :
    findPropertyValue (getSelfSignUpPatchCallData cfg).properties NOTIFICATION_INTERNALLY_MANAGED =
      some (if cfg.checkboxValues.contains NOTIFICATION_INTERNALLY_MANAGED
            then "true" else "false") := rfl

/-- PATCH entry for `SelfRegistration.ReCaptcha`. -/
theorem findPatch_reCaptcha (cfg : SelfSignUpConfigurations) :
    findPropertyValue (getSelfSignUpPatchCallData cfg).properties RE_CAPTCHA =
      some (if cfg.checkboxValues.contains RE_CAPTCHA then "true" else "false") := rfl

/-- PATCH entry for `SelfRegistration.VerificationCode.ExpiryTime`. -/
theorem findPatch_verificationCodeExpiryTime (cfg : SelfSignUpConfigurations) :
    findPropertyValue (getSelfSignUpPatchCallData cfg).properties VERIFICATION_CODE_EXPIRY_TIME =
      some cfg.verificationCodeExpiryTime := rfl

/-- PATCH entry for `SelfRegistration.VerificationCode.SMSOTP.ExpiryTime`. -/
theorem findPatch_smsOTPExpiryTime (cfg : SelfSignUpConfigurations) :
    findPropertyValue (getSelfSignUpPatchCallData cfg).properties SMS_OTP_EXPIRY_TIME =
      some cfg.smsOTPExpiryTime := rfl

/-- PATCH entry for `SelfRegistration.CallbackRegex`. -/
theorem findPatch_callbackRegex (cfg : SelfSignUpConfigurations) :
    findPropertyValue (getSelfSignUpPatchCallData cfg).properties CALLBACK_REGEX =
      some cfg.callbackRegex := rfl

/-- C6: for every view-model, `getSelfSignUpPatchCallData` emits exactly one
`{name, value}` entry per declared key — the four boolean-flag keys and three
scalar keys — in a fixed, input-independent order; each flag entry's value is
`"true"` iff the flag key is contained in `checkboxValues` and `"false"`
otherwise, and each scalar entry carries the view-model's field value
verbatim. -/
theorem getSelfSignUpPatchCallData_complete (cfg : SelfSignUpConfigurations) :
    (getSelfSignUpPatchCallData cfg).properties.map ConfigProperty.name =
      [SELF_REGISTRATION_ENABLE, ACCOUNT_LOCK_ON_CREATION, NOTIFICATION_INTERNALLY_MANAGED,
       RE_CAPTCHA, VERIFICATION_CODE_EXPIRY_TIME, SMS_OTP_EXPIRY_TIME, CALLBACK_REGEX] ∧
    (getSelfSignUpPatchCallData cfg).properties.countP
      (fun p => p.name == SELF_REGISTRATION_ENABLE) = 1 ∧
    (getSelfSignUpPatchCallData cfg).properties.countP
      (fun p => p.name == ACCOUNT_LOCK_ON_CREATION) = 1 ∧
    (getSelfSignUpPatchCallData cfg).properties.countP
      (fun p => p.name == NOTIFICATION_INTERNALLY_MANAGED) = 1 ∧
    (getSelfSignUpPatchCallData cfg).properties.countP
      (fun p => p.name == RE_CAPTCHA) = 1 ∧
    (getSelfSignUpPatchCallData cfg).properties.countP
      (fun p => p.name == VERIFICATION_CODE_EXPIRY_TIME) = 1 ∧
    (getSelfSignUpPatchCallData cfg).properties.countP
      (fun p => p.name == SMS_OTP_EXPIRY_TIME) = 1 ∧
    (getSelfSignUpPatchCallData cfg).properties.countP
      (fun p => p.name == CALLBACK_REGEX) = 1 ∧
    findPropertyValue (getSelfSignUpPatchCallData cfg).properties SELF_REGISTRATION_ENABLE =
      some (if cfg.checkboxValues.contains SELF_REGISTRATION_ENABLE
            then "true" else "false") ∧
    findPropertyValue (getSelfSignUpPatchCallData cfg).properties ACCOUNT_LOCK_ON_CREATION =
      some (if cfg.checkboxValues.contains ACCOUNT_LOCK_ON_CREATION
            then "true" else "false") ∧
    findPropertyValue (getSelfSignUpPatchCallData cfg).properties NOTIFICATION_INTERNALLY_MANAGED =
      some (if cfg.checkboxValues.contains NOTIFICATION_INTERNALLY_MANAGED
            then "true" else "false") ∧
    findPropertyValue (getSelfSignUpPatchCallData cfg).properties RE_CAPTCHA =
      some (if cfg.checkboxValues.contains RE_CAPTCHA then "true" else "false") ∧
    findPropertyValue (getSelfSignUpPatchCallData cfg).properties VERIFICATION_CODE_EXPIRY_TIME =
      some cfg.verificationCodeExpiryTime ∧
    findPropertyValue (getSelfSignUpPatchCallData cfg).properties SMS_OTP_EXPIRY_TIME =
      some cfg.smsOTPExpiryTime ∧
    findPropertyValue (getSelfSignUpPatchCallData cfg).properties CALLBACK_REGEX =
      some cfg.callbackRegex :=
  ⟨rfl, rfl, rfl, rfl, rfl, rfl, rfl, rfl, rfl, rfl, rfl, rfl, rfl, rfl, rfl⟩

/-- C10: every element of the checkbox-value list produced by
`getSelfRegistrationCheckboxValues` is one of the four declared flag keys, and
the list equals the names of the flag-key properties with value `"true"`, in
input order (not declared-key order), with one occurrence per matching input
property. -/
theorem getSelfRegistrationCheckboxValues_invariant (P : List ConfigProperty) :
    getSelfRegistrationCheckboxValues P =
      (P.filter (fun p => flagKeys.contains p.name && p.value == "true")).map
        ConfigProperty.name ∧
    ∀ k ∈ getSelfRegistrationCheckboxValues P, k ∈ flagKeys := by
  refine ⟨getSelfRegistrationCheckboxValues_eq P, ?_⟩
  intro k hk
  rw [getSelfRegistrationCheckboxValues_eq] at hk
  simp only [List.mem_map, List.mem_filter, Bool.and_eq_true] at hk
  obtain ⟨p, ⟨_, hcont, _⟩, rfl⟩ := hk
  simpa using hcont

/-- C10 witness: a concrete input with a duplicated `"true"` flag and mixed
order; the declared-key order is ReCaptcha last, yet it comes first here. -/
theorem getSelfRegistrationCheckboxValues_invariant_witness :
    getSelfRegistrationCheckboxValues
        [⟨"SelfRegistration.ReCaptcha", "true"⟩, ⟨"SelfRegistration.Enable", "true"⟩,
         ⟨"SelfRegistration.Enable", "true"⟩] =
      (([⟨"SelfRegistration.ReCaptcha", "true"⟩, ⟨"SelfRegistration.Enable", "true"⟩,
         ⟨"SelfRegistration.Enable", "true"⟩] : List ConfigProperty).filter
        (fun p => flagKeys.contains p.name && p.value == "true")).map ConfigProperty.name ∧
    "SelfRegistration.ReCaptcha" ∈ flagKeys :=
  ⟨(getSelfRegistrationCheckboxValues_invariant
      [⟨"SelfRegistration.ReCaptcha", "true"⟩, ⟨"SelfRegistration.Enable", "true"⟩,
       ⟨"SelfRegistration.Enable", "true"⟩]).1,
   (getSelfRegistrationCheckboxValues_invariant
      [⟨"SelfRegistration.ReCaptcha", "true"⟩, ⟨"SelfRegistration.Enable", "true"⟩,
       ⟨"SelfRegistration.Enable", "true"⟩]).2
     "SelfRegistration.ReCaptcha" (by decide)⟩

/-- C8: `resolveFieldLabel` and `resolveFieldHint` build a deterministic
lookup key from the camel-cased category and name, return the translation
provider's string for that key when the provider reports the key exists, and
otherwise return the supplied fallback (`displayName` / `description`)
unchanged.  The provider (`I18n.instance`) and lodash `camelCase` are external
collaborators, taken as parameters. -/
theorem resolveField_fallback (i18n : GovernanceConnectorUtils.I18nProvider)
    (camelCase : String → String) (category fieldName displayName description : String) :
    (i18n.existsKey (GovernanceConnectorUtils.fieldLabelKey camelCase category fieldName) = true →
      GovernanceConnectorUtils.resolveFieldLabel i18n camelCase category fieldName displayName =
        i18n.t (GovernanceConnectorUtils.fieldLabelKey camelCase category fieldName)) ∧
    (i18n.existsKey (GovernanceConnectorUtils.fieldLabelKey camelCase category fieldName) = false →
      GovernanceConnectorUtils.resolveFieldLabel i18n camelCase category fieldName displayName =
        displayName) ∧
    (i18n.existsKey (GovernanceConnectorUtils.fieldHintKey camelCase category fieldName) = true →
      GovernanceConnectorUtils.resolveFieldHint i18n camelCase category fieldName description =
        i18n.t (GovernanceConnectorUtils.fieldHintKey camelCase category fieldName)) ∧
    (i18n.existsKey (GovernanceConnectorUtils.fieldHintKey camelCase category fieldName) = false →
      GovernanceConnectorUtils.resolveFieldHint i18n camelCase category fieldName description =
        description) := by
  refine ⟨fun h => ?_, fun h => ?_, fun h => ?_, fun h => ?_⟩ <;>
    simp [GovernanceConnectorUtils.resolveFieldLabel,
      GovernanceConnectorUtils.resolveFieldHint, h]

/-- C8 witness: with a provider that has every key, the label is the
translated string; with a provider that has none, the fallback comes back
unchanged, for both label and hint. -/
theorem resolveField_fallback_witness :
    GovernanceConnectorUtils.resolveFieldLabel ⟨fun _ => true, fun _ => "Translated"⟩
        (fun s => s) "account-recovery" "EmailVerification.Enable" "Enable" = "Translated" ∧
    GovernanceConnectorUtils.resolveFieldLabel ⟨fun _ => false, fun _ => "Translated"⟩
        (fun s => s) "account-recovery" "EmailVerification.Enable" "Enable" = "Enable" ∧
    GovernanceConnectorUtils.resolveFieldHint ⟨fun _ => false, fun _ => "Translated"⟩
        (fun s => s) "account-recovery" "EmailVerification.Enable" "Hint" = "Hint" :=
  ⟨(resolveField_fallback ⟨fun _ => true, fun _ => "Translated"⟩ (fun s => s)
      "account-recovery" "EmailVerification.Enable" "Enable" "Hint").1 rfl,
   (resolveField_fallback ⟨fun _ => false, fun _ => "Translated"⟩ (fun s => s)
      "account-recovery" "EmailVerification.Enable" "Enable" "Hint").2.1 rfl,
   (resolveField_fallback ⟨fun _ => false, fun _ => "Translated"⟩ (fun s => s)
      "account-recovery" "EmailVerification.Enable" "Enable" "Hint").2.2.2 rfl⟩

/-- C1: for every property sequence containing each required scalar key
exactly once, `toViewModel` succeeds, and piping its view-model through
`getSelfSignUpPatchCallData` yields boolean-flag entries that are `"true"`
exactly for the flag keys carried with the literal value `"true"` in the
input (and `"false"` otherwise), and scalar entries identical to the input's
values. -/
theorem toViewModel_toUpdateRequest_round_trip (P : List ConfigProperty)
    (h1 : P.countP (fun p => p.name == VERIFICATION_CODE_EXPIRY_TIME) = 1)
    (h2 : P.countP (fun p => p.name == SMS_OTP_EXPIRY_TIME) = 1)
    (h3 : P.countP (fun p => p.name == CALLBACK_REGEX) = 1) :
    ∃ vm, toViewModel P = .ok vm ∧
      (∀ k ∈ flagKeys,
        findPropertyValue (getSelfSignUpPatchCallData vm).properties k =
          some (if P.any (fun p => p.name == k && p.value == "true")
                then "true" else "false")) ∧
      (∀ k ∈ requiredScalarKeys, ∀ p ∈ P, p.name = k →
        findPropertyValue (getSelfSignUpPatchCallData vm).properties k = some p.value) := by
  have e1 : 0 < P.countP (fun p => p.name == VERIFICATION_CODE_EXPIRY_TIME) := by
    rw [h1]; exact Nat.one_pos
  have e2 : 0 < P.countP (fun p => p.name == SMS_OTP_EXPIRY_TIME) := by
    rw [h2]; exact Nat.one_pos
  have e3 : 0 < P.countP (fun p => p.name == CALLBACK_REGEX) := by
    rw [h3]; exact Nat.one_pos
  obtain ⟨q1, hq1mem, hq1⟩ := List.countP_pos_iff.mp e1
  obtain ⟨q2, hq2mem, hq2⟩ := List.countP_pos_iff.mp e2
  obtain ⟨q3, hq3mem, hq3⟩ := List.countP_pos_iff.mp e3
  have hfind1 := find?_eq_some_of_countP_eq_one h1 hq1mem hq1
  have hfind2 := find?_eq_some_of_countP_eq_one h2 hq2mem hq2
  have hfind3 := find?_eq_some_of_countP_eq_one h3 hq3mem hq3
  refine ⟨{ checkboxValues := getSelfRegistrationCheckboxValues P,
            verificationCodeExpiryTime := q1.value,
            smsOTPExpiryTime := q2.value,
            callbackRegex := q3.value }, ?_, ?_, ?_⟩
  · simp [toViewModel, findPropertyValue, hfind1, hfind2, hfind3]
  · intro k hk
    simp only [flagKeys, List.mem_cons, List.not_mem_nil, or_false] at hk
    obtain rfl | rfl | rfl | rfl := hk
    · rw [findPatch_enable,
        contains_getSelfRegistrationCheckboxValues (by simp [flagKeys]) P]
    · rw [findPatch_lockOnCreation,
        contains_getSelfRegistrationCheckboxValues (by simp [flagKeys]) P]
    · rw [findPatch_internallyManaged,
        contains_getSelfRegistrationCheckboxValues (by simp [flagKeys]) P]
    · rw [findPatch_reCaptcha,
        contains_getSelfRegistrationCheckboxValues (by simp [flagKeys]) P]
  · intro k hk p hp hname
    simp only [requiredScalarKeys, List.mem_cons, List.not_mem_nil, or_false] at hk
    obtain rfl | rfl | rfl := hk
    · rw [findPatch_verificationCodeExpiryTime]
      have hfp : P.find? (fun q => q.name == VERIFICATION_CODE_EXPIRY_TIME) = some p :=
        find?_eq_some_of_countP_eq_one h1 hp (by simp [hname])
      rw [hfind1] at hfp
      exact congrArg (some ∘ ConfigProperty.value) (Option.some.inj hfp)
    · rw [findPatch_smsOTPExpiryTime]
      have hfp : P.find? (fun q => q.name == SMS_OTP_EXPIRY_TIME) = some p :=
        find?_eq_some_of_countP_eq_one h2 hp (by simp [hname])
      rw [hfind2] at hfp
      exact congrArg (some ∘ ConfigProperty.value) (Option.some.inj hfp)
    · rw [findPatch_callbackRegex]
      have hfp : P.find? (fun q => q.name == CALLBACK_REGEX) = some p :=
        find?_eq_some_of_countP_eq_one h3 hp (by simp [hname])
      rw [hfind3] at hfp
      exact congrArg (some ∘ ConfigProperty.value) (Option.some.inj hfp)

/-- C1 witness: the spec's example input, with each required scalar key
present exactly once, round-trips. -/
theorem toViewModel_toUpdateRequest_round_trip_witness :
    (([⟨"SelfRegistration.Enable", "true"⟩, ⟨"SelfRegistration.LockOnCreation", "false"⟩,
       ⟨"SelfRegistration.VerificationCode.ExpiryTime", "1440"⟩,
       ⟨"SelfRegistration.VerificationCode.SMSOTP.ExpiryTime", "1"⟩,
       ⟨"SelfRegistration.CallbackRegex", ".*"⟩] : List ConfigProperty).countP
      (fun p => p.name == VERIFICATION_CODE_EXPIRY_TIME) = 1) ∧
    (∃ vm, toViewModel
        [⟨"SelfRegistration.Enable", "true"⟩, ⟨"SelfRegistration.LockOnCreation", "false"⟩,
         ⟨"SelfRegistration.VerificationCode.ExpiryTime", "1440"⟩,
         ⟨"SelfRegistration.VerificationCode.SMSOTP.ExpiryTime", "1"⟩,
         ⟨"SelfRegistration.CallbackRegex", ".*"⟩] = .ok vm ∧
      (∀ k ∈ flagKeys,
        findPropertyValue (getSelfSignUpPatchCallData vm).properties k =
          some (if ([⟨"SelfRegistration.Enable", "true"⟩,
                     ⟨"SelfRegistration.LockOnCreation", "false"⟩,
                     ⟨"SelfRegistration.VerificationCode.ExpiryTime", "1440"⟩,
                     ⟨"SelfRegistration.VerificationCode.SMSOTP.ExpiryTime", "1"⟩,
                     ⟨"SelfRegistration.CallbackRegex", ".*"⟩] : List ConfigProperty).any
                      (fun p => p.name == k && p.value == "true")
                then "true" else "false")) ∧
      (∀ k ∈ requiredScalarKeys,
        ∀ p ∈ ([⟨"SelfRegistration.Enable", "true"⟩,
                ⟨"SelfRegistration.LockOnCreation", "false"⟩,
                ⟨"SelfRegistration.VerificationCode.ExpiryTime", "1440"⟩,
                ⟨"SelfRegistration.VerificationCode.SMSOTP.ExpiryTime", "1"⟩,
                ⟨"SelfRegistration.CallbackRegex", ".*"⟩] : List ConfigProperty), p.name = k →
          findPropertyValue (getSelfSignUpPatchCallData vm).properties k = some p.value)) :=
  ⟨by decide,
   toViewModel_toUpdateRequest_round_trip
     [⟨"SelfRegistration.Enable", "true"⟩, ⟨"SelfRegistration.LockOnCreation", "false"⟩,
      ⟨"SelfRegistration.VerificationCode.ExpiryTime", "1440"⟩,
      ⟨"SelfRegistration.VerificationCode.SMSOTP.ExpiryTime", "1"⟩,
      ⟨"SelfRegistration.CallbackRegex", ".*"⟩]
     (by decide) (by decide) (by decide)⟩

/-- C7: whenever `toViewModel` succeeds, a boolean-flag key is in
`checkboxValues` iff the input has a property with that name and the literal
value `"true"` (any other value or absence leaves it out), and each scalar
field is the value of the first property with the matching name. -/
theorem toViewModel_fields (P : List ConfigProperty) (vm : SelfSignUpConfigurations)
    (h : toViewModel P = .ok vm) :
    vm.checkboxValues = getSelfRegistrationCheckboxValues P ∧
    (∀ k ∈ flagKeys, (k ∈ vm.checkboxValues ↔ ∃ p ∈ P, p.name = k ∧ p.value = "true")) ∧
    (∃ p, P.find? (fun q => q.name == VERIFICATION_CODE_EXPIRY_TIME) = some p ∧
      vm.verificationCodeExpiryTime = p.value) ∧
    (∃ p, P.find? (fun q => q.name == SMS_OTP_EXPIRY_TIME) = some p ∧
      vm.smsOTPExpiryTime = p.value) ∧
    (∃ p, P.find? (fun q => q.name == CALLBACK_REGEX) = some p ∧
      vm.callbackRegex = p.value) := by
  unfold toViewModel at h
  cases e1 : findPropertyValue P VERIFICATION_CODE_EXPIRY_TIME with
  | none => simp only [e1] at h; exact Except.noConfusion h
  | some v1 =>
    simp only [e1] at h
    cases e2 : findPropertyValue P SMS_OTP_EXPIRY_TIME with
    | none => simp only [e2] at h; exact Except.noConfusion h
    | some v2 =>
      simp only [e2] at h
      cases e3 : findPropertyValue P CALLBACK_REGEX with
      | none => simp only [e3] at h; exact Except.noConfusion h
      | some v3 =>
        simp only [e3] at h
        obtain rfl := (Except.ok.inj h)
        refine ⟨rfl, ?_, ?_, ?_, ?_⟩
        · intro k hk
          exact mem_getSelfRegistrationCheckboxValues hk P
        · obtain ⟨p, hp, hval⟩ := Option.map_eq_some'.mp e1
          exact ⟨p, hp, hval.symm⟩
        · obtain ⟨p, hp, hval⟩ := Option.map_eq_some'.mp e2
          exact ⟨p, hp, hval.symm⟩
        · obtain ⟨p, hp, hval⟩ := Option.map_eq_some'.mp e3
          exact ⟨p, hp, hval.symm⟩

/-- C7 witness: on the specification's example input, the view-model carries
`checkboxValues = ["SelfRegistration.Enable"]` and
`verificationCodeExpiryTime = "1440"`. -/
theorem toViewModel_fields_witness :
    toViewModel sampleProperties =
      .ok { checkboxValues := ["SelfRegistration.Enable"],
            verificationCodeExpiryTime := "1440",
            smsOTPExpiryTime := "1", callbackRegex := ".*" } ∧
    ({ checkboxValues := ["SelfRegistration.Enable"],
       verificationCodeExpiryTime := "1440",
       smsOTPExpiryTime := "1",
       callbackRegex := ".*" } : SelfSignUpConfigurations).checkboxValues =
      getSelfRegistrationCheckboxValues sampleProperties ∧
    ("SelfRegistration.Enable" ∈
        ({ checkboxValues := ["SelfRegistration.Enable"],
           verificationCodeExpiryTime := "1440",
           smsOTPExpiryTime := "1",
           callbackRegex := ".*" } : SelfSignUpConfigurations).checkboxValues ↔
      ∃ p ∈ sampleProperties, p.name = "SelfRegistration.Enable" ∧ p.value = "true") :=
  ⟨by decide,
   (toViewModel_fields sampleProperties
     { checkboxValues := ["SelfRegistration.Enable"], verificationCodeExpiryTime := "1440",
       smsOTPExpiryTime := "1", callbackRegex := ".*" } (by decide)).1,
   (toViewModel_fields sampleProperties
     { checkboxValues := ["SelfRegistration.Enable"], verificationCodeExpiryTime := "1440",
       smsOTPExpiryTime := "1", callbackRegex := ".*" } (by decide)).2.1
     "SelfRegistration.Enable" (by decide)⟩

/-- C4: for every property sequence missing at least one required scalar key,
`toViewModel` fails with `missingPropertyError` naming an absent key — a
recoverable error value rather than a crash. -/
theorem toViewModel_missing_key (P : List ConfigProperty)
    (h : ∃ k ∈ requiredScalarKeys, P.find? (fun p => p.name == k) = none) :
    ∃ k ∈ requiredScalarKeys, P.find? (fun p => p.name == k) = none ∧
      toViewModel P = .error (.missingPropertyError k) := by
  cases e1 : findPropertyValue P VERIFICATION_CODE_EXPIRY_TIME with
  | none =>
    refine ⟨VERIFICATION_CODE_EXPIRY_TIME, by simp [requiredScalarKeys], ?_, ?_⟩
    · simpa [findPropertyValue] using e1
    · simp [toViewModel, e1]
  | some v1 =>
    cases e2 : findPropertyValue P SMS_OTP_EXPIRY_TIME with
    | none =>
      refine ⟨SMS_OTP_EXPIRY_TIME, by simp [requiredScalarKeys], ?_, ?_⟩
      · simpa [findPropertyValue] using e2
      · simp [toViewModel, e1, e2]
    | some v2 =>
      cases e3 : findPropertyValue P CALLBACK_REGEX with
      | none =>
        refine ⟨CALLBACK_REGEX, by simp [requiredScalarKeys], ?_, ?_⟩
        · simpa [findPropertyValue] using e3
        · simp [toViewModel, e1, e2, e3]
      | some v3 =>
        exfalso
        obtain ⟨k, hk, hfind⟩ := h
        simp only [requiredScalarKeys, List.mem_cons, List.not_mem_nil, or_false] at hk
        obtain rfl | rfl | rfl := hk
        · obtain ⟨a, ha, _⟩ := Option.map_eq_some'.mp e1
          rw [ha] at hfind
          exact Option.noConfusion hfind
        · obtain ⟨a, ha, _⟩ := Option.map_eq_some'.mp e2
          rw [ha] at hfind
          exact Option.noConfusion hfind
        · obtain ⟨a, ha, _⟩ := Option.map_eq_some'.mp e3
          rw [ha] at hfind
          exact Option.noConfusion hfind

/-- C4 witness: the empty property sequence is missing every required scalar
key, and `toViewModel` reports a `missingPropertyError` naming an absent
key. -/
theorem toViewModel_missing_key_witness :
    (∃ k ∈ requiredScalarKeys,
      ([] : List ConfigProperty).find? (fun p => p.name == k) = none) ∧
    (∃ k ∈ requiredScalarKeys,
      ([] : List ConfigProperty).find? (fun p => p.name == k) = none ∧
        toViewModel [] = .error (.missingPropertyError k)) :=
  ⟨⟨VERIFICATION_CODE_EXPIRY_TIME, by decide, by decide⟩,
   toViewModel_missing_key []
     ⟨VERIFICATION_CODE_EXPIRY_TIME, by decide, by decide⟩⟩

namespace GovernanceConnectorUtils

/-- Under the retained-connector guard, the allow-list property lookup always
finds the first allow-list connector with the matching id. -/
theorem getGovernanceConnectorsProperties_of_contains
    (connectors : List GovernanceConnectorForOrgs) (x : String)
    (h : (connectors.map GovernanceConnectorForOrgs.id).contains x = true) :
    ∃ a ∈ connectors, a.id = x ∧
      getGovernanceConnectorsProperties connectors x = some a.properties := by
  have hx : x ∈ connectors.map GovernanceConnectorForOrgs.id := by simpa using h
  obtain ⟨a, ha, hax⟩ := List.mem_map.mp hx
  have hmem : a ∈ connectors.filter (fun c => c.id == x) :=
    List.mem_filter.mpr ⟨ha, by simp [hax]⟩
  cases hh : (connectors.filter (fun c => c.id == x)).head? with
  | none =>
    rw [List.head?_eq_none_iff] at hh
    rw [hh] at hmem
    exact absurd hmem (List.not_mem_nil a)
  | some a0 =>
    have ha0 : a0 ∈ connectors.filter (fun c => c.id == x) :=
      List.mem_of_mem_head? (by simp [hh])
    have hsplit := List.mem_filter.mp ha0
    exact ⟨a0, hsplit.1, by simpa using hsplit.2,
      by simp [getGovernanceConnectorsProperties, hh]⟩

/-- C3: for every category id with no allow-list entry in
`SHOW_GOVERNANCE_CONNECTORS_FOR_SUBORGS` and every connector sequence,
`filterGovernanceConnectorCategories` fails with `unknownCategoryError` (the
source's unguarded `[0].connectors` crash made an explicit, reportable
error), and in particular does not return an empty sequence. -/
theorem filterGovernanceConnectorCategories_unknown_category (governanceCategoryId : String)
    (h : ∀ category ∈ SHOW_GOVERNANCE_CONNECTORS_FOR_SUBORGS,
      category.id ≠ governanceCategoryId)
    (governanceConnectors : List GovernanceConnector) :
    filterGovernanceConnectorCategories governanceCategoryId governanceConnectors =
      .error (.unknownCategoryError governanceCategoryId) := by
  have hf : (SHOW_GOVERNANCE_CONNECTORS_FOR_SUBORGS.filter
      (fun category => category.id == governanceCategoryId)) = [] := by
    rw [List.filter_eq_nil_iff]
    intro a ha
    simpa using h a ha
  simp [filterGovernanceConnectorCategories, hf]

/-- C3 witness: `"not-a-real-category"` has no allow-list entry and the filter
reports it. -/
theorem filterGovernanceConnectorCategories_unknown_category_witness :
    (∀ category ∈ SHOW_GOVERNANCE_CONNECTORS_FOR_SUBORGS,
      category.id ≠ "not-a-real-category") ∧
    filterGovernanceConnectorCategories "not-a-real-category" [] =
      .error (.unknownCategoryError "not-a-real-category") :=
  ⟨by decide,
   filterGovernanceConnectorCategories_unknown_category "not-a-real-category" (by decide) []⟩

/-- C5: for every category id with an allow-list entry, the returned sequence
contains only connectors whose id is allow-listed for that category (a subset
by id of the input; dropped connectors are dropped entirely), and each
retained connector's properties carry only allow-listed property names, as a
subsequence of the input connector's original property order. -/
theorem filterGovernanceConnectorCategories_allowlist (governanceCategoryId : String)
    (category : GovernanceCategoryForOrgs)
    (hcat : (SHOW_GOVERNANCE_CONNECTORS_FOR_SUBORGS.filter
      (fun c => c.id == governanceCategoryId)).head? = some category)
    (governanceConnectors : List GovernanceConnector) :
    ∃ result finalState,
      filterGovernanceConnectorCategories governanceCategoryId governanceConnectors =
        .ok (result, finalState) ∧
      ∀ c ∈ result,
        (∃ allowed ∈ category.connectors, allowed.id = c.id) ∧
        (∃ orig ∈ governanceConnectors, orig.id = c.id ∧ orig.name = c.name ∧
          c.properties.Sublist orig.properties) ∧
        (∀ property ∈ c.properties,
          ∃ allowed ∈ category.connectors, allowed.id = c.id ∧
            property.name ∈ allowed.properties) := by
  unfold filterGovernanceConnectorCategories
  rw [hcat]
  refine ⟨_, _, rfl, ?_⟩
  intro c hc
  rw [List.mem_filter] at hc
  obtain ⟨hcf, hcguard⟩ := hc
  obtain ⟨orig, horig, horigc⟩ := List.mem_map.mp hcf
  by_cases hg : (category.connectors.map GovernanceConnectorForOrgs.id).contains orig.id = true
  · rw [if_pos hg] at horigc
    subst horigc
    obtain ⟨a, haa, haid, hprops⟩ :=
      getGovernanceConnectorsProperties_of_contains category.connectors orig.id hg
    refine ⟨⟨a, haa, haid⟩, ⟨orig, horig, rfl, rfl, List.filter_sublist orig.properties⟩, ?_⟩
    intro property hproperty
    simp only [filterConnectorInPlace, List.mem_filter] at hproperty
    rw [hprops] at hproperty
    exact ⟨a, haa, haid, by simpa using hproperty.2⟩
  · rw [if_neg hg] at horigc
    subst horigc
    exact absurd hcguard hg

/-- C5 witness: the Account Management category retains the account-recovery
connector with only its allow-listed property and drops the unknown
connector entirely. -/
theorem filterGovernanceConnectorCategories_allowlist_witness :
    ((SHOW_GOVERNANCE_CONNECTORS_FOR_SUBORGS.filter
        (fun c => c.id == "QWNjb3VudCBNYW5hZ2VtZW50")).head? =
      some accountManagementCategory) ∧
    (∃ result finalState,
      filterGovernanceConnectorCategories "QWNjb3VudCBNYW5hZ2VtZW50" sampleConnectors =
        .ok (result, finalState) ∧
      ∀ c ∈ result,
        (∃ allowed ∈ accountManagementCategory.connectors, allowed.id = c.id) ∧
        (∃ orig ∈ sampleConnectors, orig.id = c.id ∧ orig.name = c.name ∧
          c.properties.Sublist orig.properties) ∧
        (∀ property ∈ c.properties,
          ∃ allowed ∈ accountManagementCategory.connectors, allowed.id = c.id ∧
            property.name ∈ allowed.properties)) :=
  ⟨by decide,
   filterGovernanceConnectorCategories_allowlist "QWNjb3VudCBNYW5hZ2VtZW50"
     accountManagementCategory (by decide) sampleConnectors⟩

/-- C2 counterexample: filtering category `"QWNjb3VudCBNYW5hZ2VtZW50"` over a
connector carrying a non-allow-listed property mutates that connector's
`properties` list in place (`connector.properties = connector.properties.filter(...)`):
the post-call state of the input sequence differs from the input. -/
theorem filterGovernanceConnectorCategories_mutates_input :
    (filterGovernanceConnectorCategories "QWNjb3VudCBNYW5hZ2VtZW50"
        [{ id := "YWNjb3VudC1yZWNvdmVyeQ",
           name := "account-recovery",
           properties := [⟨"Other.Property", "x"⟩] }]).map Prod.snd ≠
      .ok [{ id := "YWNjb3VudC1yZWNvdmVyeQ",
             name := "account-recovery",
             properties := [⟨"Other.Property", "x"⟩] }] := by decide

/-- Pointwise description of mapping a function over a list, as a `Forall₂`
relation between the list and its image. -/
theorem forall₂_map_of_forall_mem {α : Type} {R : α → α → Prop} (f : α → α) :
    ∀ (l : List α), (∀ x ∈ l, R x (f x)) → List.Forall₂ R l (l.map f)
  | [], _ => List.Forall₂.nil
  | x :: xs, h =>
    List.Forall₂.cons (h x (List.mem_cons_self x xs))
      (forall₂_map_of_forall_mem f xs (fun y hy => h y (List.mem_cons_of_mem x hy)))

/-- C2 (amended): for every category id with an allow-list entry,
`filterGovernanceConnectorCategories` returns a fresh filtered sequence but
mutates its input: in the post-call state of the input sequence, every
connector whose id is not allow-listed is unchanged, and each allow-listed
connector keeps its id and name while its `properties` list is filtered in
place to exactly the subsequence of properties whose names are allow-listed
for its id (a subsequence of the original: nothing added or reordered). -/
theorem filterGovernanceConnectorCategories_frame (governanceCategoryId : String)
    (category : GovernanceCategoryForOrgs)
    (hcat : (SHOW_GOVERNANCE_CONNECTORS_FOR_SUBORGS.filter
      (fun c => c.id == governanceCategoryId)).head? = some category)
    (governanceConnectors : List GovernanceConnector) :
    ∃ result finalState,
      filterGovernanceConnectorCategories governanceCategoryId governanceConnectors =
        .ok (result, finalState) ∧
      List.Forall₂ (fun orig post =>
        ((category.connectors.map GovernanceConnectorForOrgs.id).contains orig.id = false →
          post = orig) ∧
        post.id = orig.id ∧ post.name = orig.name ∧
        post.properties.Sublist orig.properties ∧
        ((category.connectors.map GovernanceConnectorForOrgs.id).contains orig.id = true →
          ∃ allowed ∈ category.connectors, allowed.id = orig.id ∧
            post.properties = orig.properties.filter
              (fun property => allowed.properties.contains property.name)))
        governanceConnectors finalState := by
  unfold filterGovernanceConnectorCategories
  rw [hcat]
  refine ⟨_, _, rfl, ?_⟩
  apply forall₂_map_of_forall_mem
  intro x hx
  dsimp only
  by_cases hg : (category.connectors.map GovernanceConnectorForOrgs.id).contains x.id = true
  · rw [if_pos hg]
    obtain ⟨a, haa, haid, hprops⟩ :=
      getGovernanceConnectorsProperties_of_contains category.connectors x.id hg
    refine ⟨fun hfalse => ?_, rfl, rfl, List.filter_sublist x.properties, fun _ => ?_⟩
    · rw [hfalse] at hg
      exact Bool.noConfusion hg
    · exact ⟨a, haa, haid, by simp [filterConnectorInPlace, hprops]⟩
  · rw [if_neg hg]
    exact ⟨fun _ => rfl, rfl, rfl, List.Sublist.refl x.properties,
      fun htrue => absurd htrue hg⟩

/-- C2 (amended) witness: on the concrete connector sequence, the allow-listed
connector's properties are filtered in place and the unknown connector is left
unchanged. -/
theorem filterGovernanceConnectorCategories_frame_witness :
    ((SHOW_GOVERNANCE_CONNECTORS_FOR_SUBORGS.filter
        (fun c => c.id == "QWNjb3VudCBNYW5hZ2VtZW50")).head? =
      some accountManagementCategory) ∧
    (∃ result finalState,
      filterGovernanceConnectorCategories "QWNjb3VudCBNYW5hZ2VtZW50" sampleConnectors =
        .ok (result, finalState) ∧
      List.Forall₂ (fun orig post =>
        ((accountManagementCategory.connectors.map GovernanceConnectorForOrgs.id).contains
            orig.id = false → post = orig) ∧
        post.id = orig.id ∧ post.name = orig.name ∧
        post.properties.Sublist orig.properties ∧
        ((accountManagementCategory.connectors.map GovernanceConnectorForOrgs.id).contains
            orig.id = true →
          ∃ allowed ∈ accountManagementCategory.connectors, allowed.id = orig.id ∧
            post.properties = orig.properties.filter
              (fun property => allowed.properties.contains property.name)))
        sampleConnectors finalState) :=
  ⟨by decide,
   filterGovernanceConnectorCategories_frame "QWNjb3VudCBNYW5hZ2VtZW50"
     accountManagementCategory (by decide) sampleConnectors⟩

end GovernanceConnectorUtils
